import Mathlib

/-!
# Shallow embedding of `pypika-validate` (`src/pypika/validation.py`)

This file embeds the join-cardinality validation engine of the repository:
the `Validate` flag algebra, the `Results` model, the four primitive check
functions, `_get_left_table`, `_item_from_and_name`, `_validate_join` and
the `execute` orchestrator.

Modelling conventions:
* A DB-API cursor is an oracle: for each issued SQL statement (given the
  history of statements issued so far on this cursor) it yields the
  behaviour of `cursor.execute` (possibly an exception), of
  `cursor.fetchone()[0]` (an exception or an integer) and of
  `cursor.fetchall()` (an exception or a list of rows).  Rows have an
  abstract type `V` (the source's `pValue = Any`).
* Python exceptions are `Except.error msg` / explicit error constructors;
  the per-join `try/except` and the main-query `try/except` of `execute`
  convert them to `Results` exactly as the source does.
* Every function threads the list of SQL statements issued so far, so that
  "no SQL is issued for this join" is expressible as trace equality.
* `log.debug` calls (the `verbose` flag's only consumers) are logging,
  declared out of scope by the spec; the `verbose` parameter is threaded
  through with the source's signatures but has no semantic effect.
-/

/-- The `Status` enum from the source. -/
inductive Status where
  | OK
  | VALIDATION_ERROR
  | SQL_ERROR
  | NOT_VALIDATED
deriving DecidableEq, Repr

/-- The `Results` dataclass from the source; `V` is the row type (`pValue`). -/
structure Results (V : Type) where
  status : Status
  value : Option (List V)
  error_msg : Option String
  error_loc : Option String
  error_size : Option Int
  error_sample : Option (List V)
deriving DecidableEq, Repr

/-!
The `Validate` flag constants (Python `enum.Flag` with `auto()` bits):
bit values are ONE_TO_MANY = 1, MANY_TO_ONE = 2, LEFT_TOTAL = 4,
RIGHT_TOTAL = 8; composites are defined as unions, exactly as in the
source.
-/

namespace Validate

def NONE : Nat := 0

def ONE_TO_MANY : Nat := 1

def MANY_TO_ONE : Nat := 2

def ONE_TO_ONE : Nat := ONE_TO_MANY ||| MANY_TO_ONE

def LEFT_TOTAL : Nat := 4

def RIGHT_TOTAL : Nat := 8

def TOTAL : Nat := LEFT_TOTAL ||| RIGHT_TOTAL

def MANDATORY : Nat := ONE_TO_ONE ||| TOTAL

end Validate

/-- A join participant (the source's duck-typed "table or subquery" item):
`table name` models a pypika `Table` whose `_table_name` is a string;
`sub alias sql` models a `QueryBuilder`/`AliasedQuery`, where `sql` is the
externally rendered `get_sql(quote_char, subquery, with_alias,
with_namespace)` text. -/
inductive Entity where
  | table (name : String)
  | sub (al : String) (sql : String)
deriving DecidableEq, Repr

/-- A field reference inside a join criterion (the source's pypika
`Field`; renamed since `Field` is taken by Mathlib): the source only reads
`f.table` (the owning entity, or `None`). -/
structure FieldRef where
  name : String
  table : Option Entity
deriving DecidableEq, Repr

/-- A join criterion (external pypika expression tree), exposed at the
interface boundary as: its set of field references (`criterion.fields_()`)
and its rendered namespaced SQL text
(`criterion.get_sql(quote_char, subquery, with_namespace)`). -/
structure Criterion where
  fields : List FieldRef
  sql : String
deriving DecidableEq, Repr

/-- A join record of the query builder.  `validation = none` models a join
object that does not expose a `validation` attribute at all (plain pypika
`JoinOn`); `validation = some v` models `join.validation == v`. -/
structure JoinRecord where
  item : Entity
  criterion : Criterion
  validation : Option Nat
deriving DecidableEq, Repr

/-- The query builder, at the interface boundary: its ordered `_joins`
list and the rendered full SQL text `query.get_sql()`. -/
structure QueryBuilder where
  joins : List JoinRecord
  sql : String
deriving DecidableEq, Repr

/-- The behaviour of the cursor on one issued statement: `execRes` is
`some msg` when `cursor.execute` raises with message `msg`;
`oneRes` is the behaviour of `cursor.fetchone()[0]` (exception or
integer); `allRes` is the behaviour of `cursor.fetchall()`. -/
structure StmtResp (V : Type) where
  execRes : Option String
  oneRes : Except String Int
  allRes : Except String (List V)

/-- A cursor: a deterministic, history-dependent oracle.  `resp tr sql` is
its behaviour when `sql` is issued after the statements in `tr`. -/
structure Cursor (V : Type) where
  resp : List String → String → StmtResp V

/-- Outcome of one validation step: `pass` is the source's `None` return,
`viol r` is a returned `Results(VALIDATION_ERROR)`, `exc msg` is a raised
exception carrying `str(exc) = msg`. -/
inductive StepRes (V : Type) where
  | pass
  | viol (r : Results V)
  | exc (msg : String)
deriving DecidableEq, Repr

/-- Issue a count query: `cursor.execute(sql)` then
`cursor.fetchone()[0]`.  Returns the extended trace and the integer or the
raised message. -/
def runCountQuery {V : Type} (c : Cursor V) (tr : List String) (sql : String) :
    List String × Except String Int :=
  let r := c.resp tr sql
  (tr ++ [sql],
    match r.execRes with
    | some msg => Except.error msg
    | none => r.oneRes)

/-- Issue a row query: `cursor.execute(sql)` then `cursor.fetchall()`. -/
def runRowsQuery {V : Type} (c : Cursor V) (tr : List String) (sql : String) :
    List String × Except String (List V) :=
  let r := c.resp tr sql
  (tr ++ [sql],
    match r.execRes with
    | some msg => Except.error msg
    | none => r.allRes)

/-- The character-level body of `_q`: `name.replace('"', '""')` — each
double-quote character is doubled (structural recursion so that concrete
instances compute). -/
def q_escape : List Char → List Char
  | [] => []
  | ch :: rest => if ch = '"' then '"' :: '"' :: q_escape rest else ch :: q_escape rest

/-- Source `_q`: wrap a name in double quotes, doubling internal double quotes. -/
def q_quote (name : String) : String :=
  "\"" ++ String.mk (q_escape name.data) ++ "\""

/-- Source `_item_from_and_name`: resolve a join item to
`(from_expr, display_name)`. -/
def item_from_and_name : Entity → String × String
  | Entity.table name => (q_quote name, name)
  | Entity.sub al sql =>
      if sql.data.head? = some '(' then (sql, al) else (q_quote al, al)

/-- Source `_get_left_table`: the single left-side entity of a join criterion, or
`none` when the distinct non-right-hand owning entities of the criterion's
fields do not number exactly one. -/
def get_left_table (criterion : Criterion) (right_table : Entity) : Option Entity :=
  let left_tables :=
    ((criterion.fields.filterMap FieldRef.table).filter (fun t => t != right_table)).eraseDups
  match left_tables with
  | [t] => some t
  | _ => none

/-- Source `_check_many_to_one`: count query first, sample query
only when the count is nonzero. -/
def check_many_to_one {V : Type} (c : Cursor V) (tr : List String)
    (left_from right_from criterion_sql left_name right_name : String)
    (verbose : Bool) : List String × StepRes V :=
  let count_sql := "SELECT COUNT(*) FROM " ++ left_from ++
    " WHERE (SELECT COUNT(*) FROM " ++ right_from ++ " WHERE " ++ criterion_sql ++ ") > 1"
  let sample_sql := "SELECT * FROM " ++ left_from ++
    " WHERE (SELECT COUNT(*) FROM " ++ right_from ++ " WHERE " ++ criterion_sql ++
    ") > 1 LIMIT 10"
  match runCountQuery c tr count_sql with
  | (tr1, Except.error msg) => (tr1, StepRes.exc msg)
  | (tr1, Except.ok count) =>
    if count = 0 then (tr1, StepRes.pass)
    else
      match runRowsQuery c tr1 sample_sql with
      | (tr2, Except.error msg) => (tr2, StepRes.exc msg)
      | (tr2, Except.ok sample) =>
        (tr2, StepRes.viol
          { status := Status.VALIDATION_ERROR
            value := none
            error_msg := some ("MANY_TO_ONE violated: " ++ toString count ++
              " left-side row(s) match multiple right-side rows")
            error_loc := some (left_name ++ " MANY_TO_ONE → " ++ right_name)
            error_size := some count
            error_sample := some sample })

/-- Source `_check_one_to_many`. -/
def check_one_to_many {V : Type} (c : Cursor V) (tr : List String)
    (left_from right_from criterion_sql left_name right_name : String)
    (verbose : Bool) : List String × StepRes V :=
  let count_sql := "SELECT COUNT(*) FROM " ++ right_from ++
    " WHERE (SELECT COUNT(*) FROM " ++ left_from ++ " WHERE " ++ criterion_sql ++ ") > 1"
  let sample_sql := "SELECT * FROM " ++ right_from ++
    " WHERE (SELECT COUNT(*) FROM " ++ left_from ++ " WHERE " ++ criterion_sql ++
    ") > 1 LIMIT 10"
  match runCountQuery c tr count_sql with
  | (tr1, Except.error msg) => (tr1, StepRes.exc msg)
  | (tr1, Except.ok count) =>
    if count = 0 then (tr1, StepRes.pass)
    else
      match runRowsQuery c tr1 sample_sql with
      | (tr2, Except.error msg) => (tr2, StepRes.exc msg)
      | (tr2, Except.ok sample) =>
        (tr2, StepRes.viol
          { status := Status.VALIDATION_ERROR
            value := none
            error_msg := some ("ONE_TO_MANY violated: " ++ toString count ++
              " right-side row(s) match multiple left-side rows")
            error_loc := some (left_name ++ " ONE_TO_MANY → " ++ right_name)
            error_size := some count
            error_sample := some sample })

/-- Source `_check_left_total`. -/
def check_left_total {V : Type} (c : Cursor V) (tr : List String)
    (left_from right_from criterion_sql left_name right_name : String)
    (verbose : Bool) : List String × StepRes V :=
  let count_sql := "SELECT COUNT(*) FROM " ++ left_from ++
    " WHERE NOT EXISTS (SELECT 1 FROM " ++ right_from ++ " WHERE " ++ criterion_sql ++ ")"
  let sample_sql := "SELECT * FROM " ++ left_from ++
    " WHERE NOT EXISTS (SELECT 1 FROM " ++ right_from ++ " WHERE " ++ criterion_sql ++
    ") LIMIT 10"
  match runCountQuery c tr count_sql with
  | (tr1, Except.error msg) => (tr1, StepRes.exc msg)
  | (tr1, Except.ok count) =>
    if count = 0 then (tr1, StepRes.pass)
    else
      match runRowsQuery c tr1 sample_sql with
      | (tr2, Except.error msg) => (tr2, StepRes.exc msg)
      | (tr2, Except.ok sample) =>
        (tr2, StepRes.viol
          { status := Status.VALIDATION_ERROR
            value := none
            error_msg := some ("LEFT_TOTAL violated: " ++ toString count ++
              " left-side row(s) have no match on right side")
            error_loc := some (left_name ++ " LEFT_TOTAL → " ++ right_name)
            error_size := some count
            error_sample := some sample })

/-- Source `_check_right_total`. -/
def check_right_total {V : Type} (c : Cursor V) (tr : List String)
    (left_from right_from criterion_sql left_name right_name : String)
    (verbose : Bool) : List String × StepRes V :=
  let count_sql := "SELECT COUNT(*) FROM " ++ right_from ++
    " WHERE NOT EXISTS (SELECT 1 FROM " ++ left_from ++ " WHERE " ++ criterion_sql ++ ")"
  let sample_sql := "SELECT * FROM " ++ right_from ++
    " WHERE NOT EXISTS (SELECT 1 FROM " ++ left_from ++ " WHERE " ++ criterion_sql ++
    ") LIMIT 10"
  match runCountQuery c tr count_sql with
  | (tr1, Except.error msg) => (tr1, StepRes.exc msg)
  | (tr1, Except.ok count) =>
    if count = 0 then (tr1, StepRes.pass)
    else
      match runRowsQuery c tr1 sample_sql with
      | (tr2, Except.error msg) => (tr2, StepRes.exc msg)
      | (tr2, Except.ok sample) =>
        (tr2, StepRes.viol
          { status := Status.VALIDATION_ERROR
            value := none
            error_msg := some ("RIGHT_TOTAL violated: " ++ toString count ++
              " right-side row(s) have no match on left side")
            error_loc := some (right_name ++ " RIGHT_TOTAL → " ++ left_name)
            error_size := some count
            error_sample := some sample })

/-- Source `_validate_join`: extract the left entity (silently
passing when it is indeterminate), resolve both sides, and run the four
primitive checks guarded by their bits, in the source's order, returning
the first non-`pass` outcome. -/
def validate_join {V : Type} (c : Cursor V) (tr : List String)
    (join : JoinRecord) (verbose : Bool) : List String × StepRes V :=
  let validate := join.validation.getD 0
  let right_table := join.item
  match get_left_table join.criterion right_table with
  | none => (tr, StepRes.pass)
  | some left_table =>
    let (left_from, left_name) := item_from_and_name left_table
    let (right_from, right_name) := item_from_and_name right_table
    let criterion_sql := join.criterion.sql
    match (if validate &&& Validate.ONE_TO_MANY ≠ 0 then
        check_one_to_many c tr left_from right_from criterion_sql left_name right_name verbose
      else (tr, StepRes.pass)) with
    | (tr1, StepRes.pass) =>
      match (if validate &&& Validate.MANY_TO_ONE ≠ 0 then
          check_many_to_one c tr1 left_from right_from criterion_sql left_name right_name verbose
        else (tr1, StepRes.pass)) with
      | (tr2, StepRes.pass) =>
        match (if validate &&& Validate.LEFT_TOTAL ≠ 0 then
            check_left_total c tr2 left_from right_from criterion_sql left_name right_name verbose
          else (tr2, StepRes.pass)) with
        | (tr3, StepRes.pass) =>
          (if validate &&& Validate.RIGHT_TOTAL ≠ 0 then
            check_right_total c tr3 left_from right_from criterion_sql left_name right_name verbose
          else (tr3, StepRes.pass))
        | other => other
      | other => other
    | other => other

/-- The `for join in query._joins` loop of `execute`: a join is skipped
unless it has a `validation` attribute with a truthy (nonzero) value;
otherwise `_validate_join` runs, and its first non-`pass` outcome stops
the loop (a raised exception or a returned violation both return
immediately in the source). -/
def joinsLoop {V : Type} (c : Cursor V) (tr : List String)
    (joins : List JoinRecord) (verbose : Bool) : List String × StepRes V :=
  match joins with
  | [] => (tr, StepRes.pass)
  | join :: rest =>
    if join.validation.getD 0 = 0 then joinsLoop c tr rest verbose
    else
      match validate_join c tr join verbose with
      | (tr1, StepRes.pass) => joinsLoop c tr1 rest verbose
      | other => other

/-- The `Results` built by `execute`'s `except` clauses:
`Results(status=Status.SQL_ERROR, error_msg=str(exc))`. -/
def mkSqlError (V : Type) (msg : String) : Results V :=
  { status := Status.SQL_ERROR
    value := none
    error_msg := some msg
    error_loc := none
    error_size := none
    error_sample := none }

/-- Source `execute`.  Returns the full trace of issued SQL
statements together with the returned `Results`. -/
def execute {V : Type} (c : Cursor V) (query : QueryBuilder)
    (skip_validation : Bool) (verbose : Bool) : List String × Results V :=
  let sql := query.sql
  match (if skip_validation then (([] : List String), StepRes.pass)
         else joinsLoop c [] query.joins verbose) with
  | (tr, StepRes.exc msg) => (tr, mkSqlError V msg)
  | (tr, StepRes.viol r) => (tr, r)
  | (tr, StepRes.pass) =>
    match runRowsQuery c tr sql with
    | (tr1, Except.error msg) => (tr1, mkSqlError V msg)
    | (tr1, Except.ok value) =>
      (tr1,
        { status := if skip_validation then Status.NOT_VALIDATED else Status.OK
          value := some value
          error_msg := none
          error_loc := none
          error_size := none
          error_sample := none })

/-!
Spec-side reference definitions.  These follow the spec's words (§4.4
table and §4.5 orchestration order) and are compared against the source
embedding above by the refinement theorems.
-/

/-- The four primitive constraint bits of the spec's §4.4 table. -/
inductive Prim where
  | ONE_TO_MANY
  | MANY_TO_ONE
  | LEFT_TOTAL
  | RIGHT_TOTAL
deriving DecidableEq, Repr

/-- The flag bit of a primitive constraint. -/
def primBit : Prim → Nat
  | Prim.ONE_TO_MANY => Validate.ONE_TO_MANY
  | Prim.MANY_TO_ONE => Validate.MANY_TO_ONE
  | Prim.LEFT_TOTAL => Validate.LEFT_TOTAL
  | Prim.RIGHT_TOTAL => Validate.RIGHT_TOTAL

/-- The bit index of a primitive constraint (`primBit p = 2 ^ primIdx p`). -/
def primIdx : Prim → Nat
  | Prim.ONE_TO_MANY => 0
  | Prim.MANY_TO_ONE => 1
  | Prim.LEFT_TOTAL => 2
  | Prim.RIGHT_TOTAL => 3

/-- A flag value built by OR-ing a list of primitive bits (models an
arbitrary composition of primitive flags with `|`). -/
def buildFlags : List Prim → Nat
  | [] => 0
  | p :: l => primBit p ||| buildFlags l

/-- The spec's fixed priority order of the primitive checks (§4.5). -/
def primOrder : List Prim :=
  [Prim.ONE_TO_MANY, Prim.MANY_TO_ONE, Prim.LEFT_TOTAL, Prim.RIGHT_TOTAL]

/-- The resolved context of one determinate join: both from-fragments,
the rendered predicate, and both display names. -/
structure JoinCtx where
  left_from : String
  right_from : String
  criterion_sql : String
  left_name : String
  right_name : String
deriving DecidableEq, Repr

/-- Dispatch one primitive check (the source's `_check_*` functions) on a
resolved join context. -/
def runPrimCheck {V : Type} (p : Prim) (c : Cursor V) (tr : List String)
    (ctx : JoinCtx) (verbose : Bool) : List String × StepRes V :=
  match p with
  | Prim.ONE_TO_MANY =>
    check_one_to_many c tr ctx.left_from ctx.right_from ctx.criterion_sql
      ctx.left_name ctx.right_name verbose
  | Prim.MANY_TO_ONE =>
    check_many_to_one c tr ctx.left_from ctx.right_from ctx.criterion_sql
      ctx.left_name ctx.right_name verbose
  | Prim.LEFT_TOTAL =>
    check_left_total c tr ctx.left_from ctx.right_from ctx.criterion_sql
      ctx.left_name ctx.right_name verbose
  | Prim.RIGHT_TOTAL =>
    check_right_total c tr ctx.left_from ctx.right_from ctx.criterion_sql
      ctx.left_name ctx.right_name verbose

/-- Modelled from the spec: the count-query shape of the §4.4 table, with
`L`, `R` the resolved from-fragments and `P` the rendered predicate. -/
def spec_count_sql (p : Prim) (L R P : String) : String :=
  match p with
  | Prim.MANY_TO_ONE =>
    "SELECT COUNT(*) FROM " ++ L ++ " WHERE (SELECT COUNT(*) FROM " ++ R ++
      " WHERE " ++ P ++ ") > 1"
  | Prim.ONE_TO_MANY =>
    "SELECT COUNT(*) FROM " ++ R ++ " WHERE (SELECT COUNT(*) FROM " ++ L ++
      " WHERE " ++ P ++ ") > 1"
  | Prim.LEFT_TOTAL =>
    "SELECT COUNT(*) FROM " ++ L ++ " WHERE NOT EXISTS (SELECT 1 FROM " ++ R ++
      " WHERE " ++ P ++ ")"
  | Prim.RIGHT_TOTAL =>
    "SELECT COUNT(*) FROM " ++ R ++ " WHERE NOT EXISTS (SELECT 1 FROM " ++ L ++
      " WHERE " ++ P ++ ")"

/-- Modelled from the spec: the sample-query shape of the §4.4 table
(same as the count shape, selecting `*`, with `LIMIT 10`). -/
def spec_sample_sql (p : Prim) (L R P : String) : String :=
  match p with
  | Prim.MANY_TO_ONE =>
    "SELECT * FROM " ++ L ++ " WHERE (SELECT COUNT(*) FROM " ++ R ++
      " WHERE " ++ P ++ ") > 1 LIMIT 10"
  | Prim.ONE_TO_MANY =>
    "SELECT * FROM " ++ R ++ " WHERE (SELECT COUNT(*) FROM " ++ L ++
      " WHERE " ++ P ++ ") > 1 LIMIT 10"
  | Prim.LEFT_TOTAL =>
    "SELECT * FROM " ++ L ++ " WHERE NOT EXISTS (SELECT 1 FROM " ++ R ++
      " WHERE " ++ P ++ ") LIMIT 10"
  | Prim.RIGHT_TOTAL =>
    "SELECT * FROM " ++ R ++ " WHERE NOT EXISTS (SELECT 1 FROM " ++ L ++
      " WHERE " ++ P ++ ") LIMIT 10"

/-- Modelled from the spec (§4.5): the checks one join contributes to the
combined plan — none when the join is unflagged or indeterminate,
otherwise one entry per flag bit present, in the fixed priority order. -/
def spec_join_checks (j : JoinRecord) : List (JoinCtx × Prim) :=
  match j.validation with
  | none => []
  | some v =>
    if v = 0 then []
    else
      match get_left_table j.criterion j.item with
      | none => []
      | some left_table =>
        let (left_from, left_name) := item_from_and_name left_table
        let (right_from, right_name) := item_from_and_name j.item
        let ctx : JoinCtx :=
          { left_from := left_from, right_from := right_from,
            criterion_sql := j.criterion.sql,
            left_name := left_name, right_name := right_name }
        (primOrder.filter (fun p => v &&& primBit p ≠ 0)).map (fun p => (ctx, p))

/-- Modelled from the spec (§4.5): the combined check plan of a query —
each flagged determinate join's checks, in declared join order. -/
def spec_plan (query : QueryBuilder) : List (JoinCtx × Prim) :=
  query.joins.flatMap spec_join_checks

/-- Modelled from the spec (§4.5): run a check plan in order, stopping at
the first check that does not pass. -/
def spec_run_plan {V : Type} (c : Cursor V) (verbose : Bool) :
    List String → List (JoinCtx × Prim) → List String × StepRes V
  | tr, [] => (tr, StepRes.pass)
  | tr, (ctx, p) :: rest =>
    match runPrimCheck p c tr ctx verbose with
    | (tr1, StepRes.pass) => spec_run_plan c verbose tr1 rest
    | other => other

/-!
Helper lemmas.
-/

/-- The `Results` record each check builds on a violation. -/
def primViolResults (V : Type) (p : Prim) (k : Int) (s : List V)
    (left_name right_name : String) : Results V :=
  match p with
  | Prim.ONE_TO_MANY =>
    { status := Status.VALIDATION_ERROR, value := none
      error_msg := some ("ONE_TO_MANY violated: " ++ toString k ++
        " right-side row(s) match multiple left-side rows")
      error_loc := some (left_name ++ " ONE_TO_MANY → " ++ right_name)
      error_size := some k, error_sample := some s }
  | Prim.MANY_TO_ONE =>
    { status := Status.VALIDATION_ERROR, value := none
      error_msg := some ("MANY_TO_ONE violated: " ++ toString k ++
        " left-side row(s) match multiple right-side rows")
      error_loc := some (left_name ++ " MANY_TO_ONE → " ++ right_name)
      error_size := some k, error_sample := some s }
  | Prim.LEFT_TOTAL =>
    { status := Status.VALIDATION_ERROR, value := none
      error_msg := some ("LEFT_TOTAL violated: " ++ toString k ++
        " left-side row(s) have no match on right side")
      error_loc := some (left_name ++ " LEFT_TOTAL → " ++ right_name)
      error_size := some k, error_sample := some s }
  | Prim.RIGHT_TOTAL =>
    { status := Status.VALIDATION_ERROR, value := none
      error_msg := some ("RIGHT_TOTAL violated: " ++ toString k ++
        " right-side row(s) have no match on left side")
      error_loc := some (right_name ++ " RIGHT_TOTAL → " ++ left_name)
      error_size := some k, error_sample := some s }

/-- The common count-then-conditional-sample skeleton shared by the four
`_check_*` functions. -/
def checkSkeleton {V : Type} (c : Cursor V) (tr : List String)
    (count_sql sample_sql : String) (build : Int → List V → Results V) :
    List String × StepRes V :=
  match runCountQuery c tr count_sql with
  | (tr1, Except.error msg) => (tr1, StepRes.exc msg)
  | (tr1, Except.ok count) =>
    if count = 0 then (tr1, StepRes.pass)
    else
      match runRowsQuery c tr1 sample_sql with
      | (tr2, Except.error msg) => (tr2, StepRes.exc msg)
      | (tr2, Except.ok sample) => (tr2, StepRes.viol (build count sample))

/-- Concrete witness data: a users→profiles join flagged ONE_TO_ONE. -/
def wJoin : JoinRecord :=
  JoinRecord.mk (Entity.table "profiles")
    (Criterion.mk [FieldRef.mk "id" (some (Entity.table "users"))] "P")
    (some Validate.ONE_TO_ONE)

def wQuery : QueryBuilder := QueryBuilder.mk [wJoin] "MAIN"

/-- A cursor whose every count query reports 5 violations and whose every
row query returns `[7, 8]`. -/
def wCursorViol : Cursor Nat :=
  Cursor.mk (fun _ _ => StmtResp.mk none (Except.ok 5) (Except.ok [7, 8]))

/-- The raising semantics of `execute`: the same interpreter without the
source's two `try/except` boundaries, so a driver exception propagates as
`Except.error` instead of being converted.  Used to state that `execute`
converts exactly the exceptions that would escape. -/
def executeRaises {V : Type} (c : Cursor V) (query : QueryBuilder)
    (skip_validation : Bool) (verbose : Bool) :
    Except String (List String × Results V) :=
  match (if skip_validation then (([] : List String), StepRes.pass)
         else joinsLoop c [] query.joins verbose) with
  | (_, StepRes.exc msg) => Except.error msg
  | (tr, StepRes.viol r) => Except.ok (tr, r)
  | (tr, StepRes.pass) =>
    match runRowsQuery c tr query.sql with
    | (_, Except.error msg) => Except.error msg
    | (tr1, Except.ok value) =>
      Except.ok (tr1,
        { status := if skip_validation then Status.NOT_VALIDATED else Status.OK
          value := some value
          error_msg := none, error_loc := none,
          error_size := none, error_sample := none })

/-- A cursor whose every statement raises with message `boom`. -/
def wCursorErr : Cursor Nat :=
  Cursor.mk (fun _ _ => StmtResp.mk (some "boom") (Except.error "boom") (Except.error "boom"))

/-- A cursor (database) that honors `LIMIT 10`: any §4.4-shaped sample
query that returns rows returns at most 10 of them.  The cap in the
source is enforced by the `LIMIT 10` clause of the sample query, so it
holds exactly on drivers that honor `LIMIT`. -/
def honorsLimit10 {V : Type} (c : Cursor V) : Prop :=
  ∀ (tr : List String) (p : Prim) (L R P : String) (rows : List V),
    (c.resp tr (spec_sample_sql p L R P)).allRes = Except.ok rows → rows.length ≤ 10

/-- The resolved context of `wJoin`. -/
def wCtx : JoinCtx := JoinCtx.mk "\"users\"" "\"profiles\"" "P" "users" "profiles"

/-- A flagged join whose predicate references two distinct left entities
(indeterminate). -/
def wJoinInd : JoinRecord :=
  JoinRecord.mk (Entity.table "r")
    (Criterion.mk [FieldRef.mk "a" (some (Entity.table "x")),
                   FieldRef.mk "b" (some (Entity.table "y"))] "PP")
    (some Validate.MANDATORY)

/-- A join record with no `validation` attribute. -/
def wJoinNoAttr : JoinRecord :=
  JoinRecord.mk (Entity.table "r") (Criterion.mk [] "PP") none

theorem primBit_eq_two_pow (p : Prim) : primBit p = 2 ^ primIdx p := by
  cases p <;> rfl

theorem primIdx_injective : Function.Injective primIdx := by
  intro p p' h
  cases p <;> cases p' <;> simp [primIdx] at h ⊢

theorem buildFlags_testBit (l : List Prim) (i : Nat) :
    (buildFlags l).testBit i = true ↔ ∃ p ∈ l, primIdx p = i := by
  induction l with
  | nil => simp [buildFlags]
  | cons p l ih =>
    simp only [buildFlags, Nat.testBit_or, primBit_eq_two_pow, Nat.testBit_two_pow,
      Bool.or_eq_true, decide_eq_true_eq, ih, List.mem_cons]
    constructor
    · rintro (h | ⟨p', hp', hi⟩)
      · exact ⟨p, Or.inl rfl, h⟩
      · exact ⟨p', Or.inr hp', hi⟩
    · rintro ⟨p', (rfl | hp'), hi⟩
      · exact Or.inl hi
      · exact Or.inr ⟨p', hp', hi⟩

/-- C7: the composite flag constants equal the unions of their primitive
bits, and any two flag values built from the same primitive bits compare
equal regardless of how they were composed. -/
theorem flag_algebra :
    (Validate.ONE_TO_ONE = Validate.ONE_TO_MANY ||| Validate.MANY_TO_ONE ∧
     Validate.TOTAL = Validate.LEFT_TOTAL ||| Validate.RIGHT_TOTAL ∧
     Validate.MANDATORY = Validate.ONE_TO_ONE ||| Validate.TOTAL) ∧
    ∀ l1 l2 : List Prim, (∀ p : Prim, p ∈ l1 ↔ p ∈ l2) →
      buildFlags l1 = buildFlags l2 := by
  refine ⟨⟨rfl, rfl, rfl⟩, ?_⟩
  intro l1 l2 hmem
  apply Nat.eq_of_testBit_eq
  intro i
  have h1 := buildFlags_testBit l1 i
  have h2 := buildFlags_testBit l2 i
  have : ((buildFlags l1).testBit i = true) ↔ ((buildFlags l2).testBit i = true) := by
    rw [h1, h2]
    constructor
    · rintro ⟨p, hp, hi⟩; exact ⟨p, (hmem p).mp hp, hi⟩
    · rintro ⟨p, hp, hi⟩; exact ⟨p, (hmem p).mpr hp, hi⟩
  cases hb1 : (buildFlags l1).testBit i <;> cases hb2 : (buildFlags l2).testBit i <;>
    simp [hb1, hb2] at this ⊢

/-- Witness for `flag_algebra` at concrete flag lists. -/
theorem flag_algebra_witness :
    buildFlags [Prim.ONE_TO_MANY, Prim.MANY_TO_ONE] =
      buildFlags [Prim.MANY_TO_ONE, Prim.ONE_TO_MANY, Prim.ONE_TO_MANY] :=
  flag_algebra.2 _ _ (by intro p; cases p <;> decide)

/-!
Verbose-irrelevance: the `verbose` flag only feeds `log.debug` calls
(out-of-scope logging), so every function is invariant in it.
-/

theorem check_many_to_one_verbose {V : Type} (c : Cursor V) (tr : List String)
    (lf rf cs ln rn : String) (vb : Bool) :
    check_many_to_one c tr lf rf cs ln rn vb =
      check_many_to_one c tr lf rf cs ln rn false := rfl

theorem check_one_to_many_verbose {V : Type} (c : Cursor V) (tr : List String)
    (lf rf cs ln rn : String) (vb : Bool) :
    check_one_to_many c tr lf rf cs ln rn vb =
      check_one_to_many c tr lf rf cs ln rn false := rfl

theorem check_left_total_verbose {V : Type} (c : Cursor V) (tr : List String)
    (lf rf cs ln rn : String) (vb : Bool) :
    check_left_total c tr lf rf cs ln rn vb =
      check_left_total c tr lf rf cs ln rn false := rfl

theorem check_right_total_verbose {V : Type} (c : Cursor V) (tr : List String)
    (lf rf cs ln rn : String) (vb : Bool) :
    check_right_total c tr lf rf cs ln rn vb =
      check_right_total c tr lf rf cs ln rn false := rfl

theorem validate_join_verbose {V : Type} (c : Cursor V) (tr : List String)
    (j : JoinRecord) (vb : Bool) :
    validate_join c tr j vb = validate_join c tr j false := by
  simp only [validate_join, check_many_to_one_verbose, check_one_to_many_verbose,
    check_left_total_verbose, check_right_total_verbose]

theorem joinsLoop_verbose {V : Type} (c : Cursor V) (joins : List JoinRecord) :
    ∀ (tr : List String) (vb : Bool),
    joinsLoop c tr joins vb = joinsLoop c tr joins false := by
  induction joins with
  | nil => intro tr vb; rfl
  | cons j rest ih =>
    intro tr vb
    simp only [joinsLoop, validate_join_verbose]
    by_cases h : j.validation.getD 0 = 0
    · simp [h, ih]
    · simp only [h, if_neg h]
      match validate_join c tr j false with
      | (tr1, StepRes.pass) => simp [ih]
      | (tr1, StepRes.viol r) => simp
      | (tr1, StepRes.exc m) => simp

/-- C8: two runs of `execute` that differ only in `verbose` issue the same
SQL statements in the same order and return equal `Results` — `verbose`
influences diagnostic logging only, never behavior or return values. -/
theorem execute_verbose_irrelevant {V : Type} (c : Cursor V) (query : QueryBuilder)
    (skip_validation : Bool) (vb1 vb2 : Bool) :
    execute c query skip_validation vb1 = execute c query skip_validation vb2 := by
  simp only [execute, joinsLoop_verbose]

/-- C3: with `skip_validation = true`, `execute` issues no validation SQL
at all — the trace is exactly the main query — and returns
`NOT_VALIDATED` with the row set on success or `SQL_ERROR` on driver
failure. -/
theorem execute_skip_validation {V : Type} (c : Cursor V) (query : QueryBuilder)
    (vb : Bool) :
    execute c query true vb =
      ([query.sql],
        match (c.resp [] query.sql).execRes with
        | some msg => mkSqlError V msg
        | none =>
          match (c.resp [] query.sql).allRes with
          | Except.error msg => mkSqlError V msg
          | Except.ok rows =>
            { status := Status.NOT_VALIDATED, value := some rows,
              error_msg := none, error_loc := none,
              error_size := none, error_sample := none }) := by
  simp only [execute, runRowsQuery]
  match h : (c.resp [] query.sql).execRes with
  | some msg => simp [h]
  | none =>
    match h2 : (c.resp [] query.sql).allRes with
    | Except.error msg => simp [h, h2]
    | Except.ok rows => simp [h, h2]

theorem runPrimCheck_eq_skeleton {V : Type} (p : Prim) (c : Cursor V)
    (tr : List String) (ctx : JoinCtx) (vb : Bool) :
    runPrimCheck p c tr ctx vb =
      checkSkeleton c tr
        (spec_count_sql p ctx.left_from ctx.right_from ctx.criterion_sql)
        (spec_sample_sql p ctx.left_from ctx.right_from ctx.criterion_sql)
        (fun k s => primViolResults V p k s ctx.left_name ctx.right_name) := by
  cases p <;> rfl

theorem checkSkeleton_eq {V : Type} (c : Cursor V) (tr : List String)
    (cs ss : String) (build : Int → List V → Results V) :
    checkSkeleton c tr cs ss build =
      match (match (c.resp tr cs).execRes with
             | some msg => Except.error msg
             | none => (c.resp tr cs).oneRes) with
      | Except.error msg => (tr ++ [cs], StepRes.exc msg)
      | Except.ok k =>
        if k = 0 then (tr ++ [cs], StepRes.pass)
        else
          match (match (c.resp (tr ++ [cs]) ss).execRes with
                 | some msg => Except.error msg
                 | none => (c.resp (tr ++ [cs]) ss).allRes) with
          | Except.error msg => (tr ++ [cs, ss], StepRes.exc msg)
          | Except.ok s => (tr ++ [cs, ss], StepRes.viol (build k s)) := by
  simp only [checkSkeleton, runCountQuery, runRowsQuery]
  cases h1 : (c.resp tr cs).execRes with
  | some msg => simp [h1]
  | none =>
    cases h2 : (c.resp tr cs).oneRes with
    | error msg => simp [h1, h2]
    | ok k =>
      simp only [h1, h2]
      by_cases hk : k = 0
      · simp [hk]
      · simp only [hk, if_neg hk]
        cases h3 : (c.resp (tr ++ [cs]) ss).execRes with
        | some msg => simp [h3, List.append_assoc]
        | none =>
          cases h4 : (c.resp (tr ++ [cs]) ss).allRes with
          | error msg => simp [h3, h4, List.append_assoc]
          | ok s => simp [h3, h4, List.append_assoc]

/-- C4: each primitive check issues a count query of exactly the §4.4
shape first; when the returned count is zero no sample query is issued and
the constraint passes; when it is nonzero the sample query of the §4.4
shape (selecting `*` with `LIMIT 10`) is issued next and the check reports
the violation. -/
theorem prim_check_query_shapes {V : Type} (p : Prim) (c : Cursor V)
    (tr : List String) (ctx : JoinCtx) (vb : Bool) :
    (∃ rest, (runPrimCheck p c tr ctx vb).1 =
        tr ++ spec_count_sql p ctx.left_from ctx.right_from ctx.criterion_sql :: rest) ∧
    ((c.resp tr (spec_count_sql p ctx.left_from ctx.right_from ctx.criterion_sql)).execRes = none →
     (c.resp tr (spec_count_sql p ctx.left_from ctx.right_from ctx.criterion_sql)).oneRes =
        Except.ok 0 →
     runPrimCheck p c tr ctx vb =
        (tr ++ [spec_count_sql p ctx.left_from ctx.right_from ctx.criterion_sql],
         StepRes.pass)) ∧
    (∀ k : Int, k ≠ 0 →
     (c.resp tr (spec_count_sql p ctx.left_from ctx.right_from ctx.criterion_sql)).execRes = none →
     (c.resp tr (spec_count_sql p ctx.left_from ctx.right_from ctx.criterion_sql)).oneRes =
        Except.ok k →
     ∀ s : List V,
     (c.resp (tr ++ [spec_count_sql p ctx.left_from ctx.right_from ctx.criterion_sql])
        (spec_sample_sql p ctx.left_from ctx.right_from ctx.criterion_sql)).execRes = none →
     (c.resp (tr ++ [spec_count_sql p ctx.left_from ctx.right_from ctx.criterion_sql])
        (spec_sample_sql p ctx.left_from ctx.right_from ctx.criterion_sql)).allRes =
        Except.ok s →
     runPrimCheck p c tr ctx vb =
        (tr ++ [spec_count_sql p ctx.left_from ctx.right_from ctx.criterion_sql,
                spec_sample_sql p ctx.left_from ctx.right_from ctx.criterion_sql],
         StepRes.viol (primViolResults V p k s ctx.left_name ctx.right_name))) := by
  rw [runPrimCheck_eq_skeleton, checkSkeleton_eq]
  refine ⟨?_, ?_, ?_⟩
  · cases h1 : (c.resp tr (spec_count_sql p ctx.left_from ctx.right_from ctx.criterion_sql)).execRes with
    | some msg => exact ⟨[], by simp [h1]⟩
    | none =>
      cases h2 : (c.resp tr (spec_count_sql p ctx.left_from ctx.right_from ctx.criterion_sql)).oneRes with
      | error msg => exact ⟨[], by simp [h1, h2]⟩
      | ok k =>
        by_cases hk : k = 0
        · exact ⟨[], by simp [h1, h2, hk]⟩
        · refine ⟨[spec_sample_sql p ctx.left_from ctx.right_from ctx.criterion_sql], ?_⟩
          simp only [h1, h2, if_neg hk]
          cases h3 : (c.resp (tr ++ [spec_count_sql p ctx.left_from ctx.right_from ctx.criterion_sql])
              (spec_sample_sql p ctx.left_from ctx.right_from ctx.criterion_sql)).execRes with
          | some msg => simp [h3]
          | none =>
            cases h4 : (c.resp (tr ++ [spec_count_sql p ctx.left_from ctx.right_from ctx.criterion_sql])
                (spec_sample_sql p ctx.left_from ctx.right_from ctx.criterion_sql)).allRes with
            | error msg => simp [h3, h4]
            | ok s => simp [h3, h4]
  · intro h1 h2
    simp [h1, h2]
  · intro k hk h1 h2 s h3 h4
    simp [h1, h2, hk, h3, h4]

/-- Witness for `prim_check_query_shapes` at a concrete cursor and
context. -/
theorem prim_check_query_shapes_witness :
    (∃ rest,
      (runPrimCheck Prim.MANY_TO_ONE
        (Cursor.mk (fun _ _ => StmtResp.mk none (Except.ok 3) (Except.ok [5])))
        [] (JoinCtx.mk "\"l\"" "\"r\"" "pp" "l" "r") false).1 =
      [] ++ spec_count_sql Prim.MANY_TO_ONE "\"l\"" "\"r\"" "pp" :: rest) ∧
    runPrimCheck Prim.MANY_TO_ONE
        (Cursor.mk (fun _ _ => StmtResp.mk none (Except.ok 3) (Except.ok [5])))
        [] (JoinCtx.mk "\"l\"" "\"r\"" "pp" "l" "r") false =
      ([] ++ [spec_count_sql Prim.MANY_TO_ONE "\"l\"" "\"r\"" "pp",
              spec_sample_sql Prim.MANY_TO_ONE "\"l\"" "\"r\"" "pp"],
       StepRes.viol (primViolResults Nat Prim.MANY_TO_ONE 3 [5] "l" "r")) := by
  refine ⟨(prim_check_query_shapes Prim.MANY_TO_ONE _ [] _ false).1, ?_⟩
  exact (prim_check_query_shapes Prim.MANY_TO_ONE _ [] _ false).2.2 3 (by decide)
    rfl rfl [5] rfl rfl

theorem stepMatch_id {V : Type} (x : List String × StepRes V) :
    (match x with
     | (tr1, StepRes.pass) => (tr1, StepRes.pass)
     | other => other) = x := by
  rcases x with ⟨tr1, (_ | _ | _)⟩ <;> rfl

theorem spec_run_plan_append {V : Type} (c : Cursor V) (vb : Bool)
    (xs ys : List (JoinCtx × Prim)) : ∀ tr : List String,
    spec_run_plan c vb tr (xs ++ ys) =
      (match spec_run_plan c vb tr xs with
       | (tr1, StepRes.pass) => spec_run_plan c vb tr1 ys
       | other => other) := by
  induction xs with
  | nil => intro tr; rfl
  | cons x xs ih =>
    intro tr
    rcases x with ⟨ctx, p⟩
    simp only [List.cons_append, spec_run_plan]
    rcases h : runPrimCheck p c tr ctx vb with ⟨tr1, (_ | _ | _)⟩ <;> simp [ih]

theorem spec_run_plan_singleton {V : Type} (c : Cursor V) (vb : Bool)
    (ctx : JoinCtx) (p : Prim) (tr : List String) :
    spec_run_plan c vb tr [(ctx, p)] = runPrimCheck p c tr ctx vb := by
  simp only [spec_run_plan]
  rcases h : runPrimCheck p c tr ctx vb with ⟨tr1, (_ | _ | _)⟩ <;> rfl

theorem spec_join_checks_unflagged (j : JoinRecord) (h : j.validation.getD 0 = 0) :
    spec_join_checks j = [] := by
  rcases hv : j.validation with _ | v
  · simp [spec_join_checks, hv]
  · rw [hv] at h
    simp only [Option.getD_some] at h
    simp [spec_join_checks, hv, h]

theorem spec_run_plan_condSingleton {V : Type} (c : Cursor V) (vb : Bool)
    (b : Prop) [Decidable b] (ctx : JoinCtx) (p : Prim)
    (rest : List (JoinCtx × Prim)) (tr : List String) :
    spec_run_plan c vb tr ((if b then [(ctx, p)] else []) ++ rest) =
      (match (if b then runPrimCheck p c tr ctx vb else (tr, StepRes.pass)) with
       | (tr1, StepRes.pass) => spec_run_plan c vb tr1 rest
       | other => other) := by
  by_cases hb : b
  · simp only [if_pos hb, spec_run_plan_append, spec_run_plan_singleton]
  · simp only [if_neg hb, List.nil_append]

theorem spec_run_plan_condBare {V : Type} (c : Cursor V) (vb : Bool)
    (b : Prop) [Decidable b] (ctx : JoinCtx) (p : Prim) (tr : List String) :
    spec_run_plan c vb tr (if b then [(ctx, p)] else []) =
      (if b then runPrimCheck p c tr ctx vb else (tr, StepRes.pass)) := by
  by_cases hb : b
  · simp only [if_pos hb, spec_run_plan_singleton]
  · simp only [if_neg hb]; rfl

theorem validate_join_eq_plan {V : Type} (c : Cursor V) (tr : List String)
    (j : JoinRecord) (vb : Bool) (h : j.validation.getD 0 ≠ 0) :
    validate_join c tr j vb = spec_run_plan c vb tr (spec_join_checks j) := by
  rcases hv : j.validation with _ | v
  · rw [hv] at h; simp at h
  · have hv0 : v ≠ 0 := by rw [hv] at h; simpa using h
    simp only [validate_join, spec_join_checks, hv, Option.getD_some, if_neg hv0]
    cases hg : get_left_table j.criterion j.item with
    | none => rfl
    | some lt =>
      rcases hl : item_from_and_name lt with ⟨lf, ln⟩
      rcases hr : item_from_and_name j.item with ⟨rf, rn⟩
      simp only [hl, hr]
      have hplan : ∀ g : Prim → JoinCtx × Prim,
          (primOrder.filter (fun p => decide (v &&& primBit p ≠ 0))).map g =
            (if v &&& Validate.ONE_TO_MANY ≠ 0 then [g Prim.ONE_TO_MANY] else []) ++
            ((if v &&& Validate.MANY_TO_ONE ≠ 0 then [g Prim.MANY_TO_ONE] else []) ++
             ((if v &&& Validate.LEFT_TOTAL ≠ 0 then [g Prim.LEFT_TOTAL] else []) ++
              (if v &&& Validate.RIGHT_TOTAL ≠ 0 then [g Prim.RIGHT_TOTAL] else []))) := by
        intro g
        by_cases b1 : v &&& Validate.ONE_TO_MANY ≠ 0 <;>
        by_cases b2 : v &&& Validate.MANY_TO_ONE ≠ 0 <;>
        by_cases b3 : v &&& Validate.LEFT_TOTAL ≠ 0 <;>
        by_cases b4 : v &&& Validate.RIGHT_TOTAL ≠ 0 <;>
        simp [primOrder, primBit, b1, b2, b3, b4]
      rw [hplan]
      simp only [spec_run_plan_condSingleton]
      simp only [spec_run_plan_condBare]
      rfl

theorem joinsLoop_eq_plan {V : Type} (c : Cursor V) (vb : Bool) :
    ∀ (joins : List JoinRecord) (tr : List String),
    joinsLoop c tr joins vb = spec_run_plan c vb tr (joins.flatMap spec_join_checks) := by
  intro joins
  induction joins with
  | nil => intro tr; rfl
  | cons j rest ih =>
    intro tr
    simp only [joinsLoop, List.flatMap_cons, spec_run_plan_append]
    by_cases h : j.validation.getD 0 = 0
    · simp only [if_pos h, spec_join_checks_unflagged j h, spec_run_plan, ih]
    · simp only [if_neg h, validate_join_eq_plan c tr j vb h]
      rcases hs : spec_run_plan c vb tr (spec_join_checks j) with ⟨tr1, (_ | _ | _)⟩ <;>
        simp [ih]

theorem runPrimCheck_viol_inv {V : Type} (p : Prim) (c : Cursor V) (tr : List String)
    (ctx : JoinCtx) (vb : Bool) (tr' : List String) (r : Results V)
    (h : runPrimCheck p c tr ctx vb = (tr', StepRes.viol r)) :
    ∃ k s,
      (c.resp tr (spec_count_sql p ctx.left_from ctx.right_from ctx.criterion_sql)).execRes =
        none ∧
      (c.resp tr (spec_count_sql p ctx.left_from ctx.right_from ctx.criterion_sql)).oneRes =
        Except.ok k ∧
      k ≠ 0 ∧
      (c.resp (tr ++ [spec_count_sql p ctx.left_from ctx.right_from ctx.criterion_sql])
        (spec_sample_sql p ctx.left_from ctx.right_from ctx.criterion_sql)).allRes =
        Except.ok s ∧
      tr' = tr ++ [spec_count_sql p ctx.left_from ctx.right_from ctx.criterion_sql,
                   spec_sample_sql p ctx.left_from ctx.right_from ctx.criterion_sql] ∧
      r = primViolResults V p k s ctx.left_name ctx.right_name := by
  rw [runPrimCheck_eq_skeleton, checkSkeleton_eq] at h
  revert h
  cases h1 : (c.resp tr (spec_count_sql p ctx.left_from ctx.right_from ctx.criterion_sql)).execRes with
  | some msg => intro h; simp at h
  | none =>
    cases h2 : (c.resp tr (spec_count_sql p ctx.left_from ctx.right_from ctx.criterion_sql)).oneRes with
    | error msg => intro h; simp [h2] at h
    | ok k =>
      by_cases hk : k = 0
      · intro h; simp [h2, hk] at h
      · simp only [h2, if_neg hk]
        cases h3 : (c.resp (tr ++ [spec_count_sql p ctx.left_from ctx.right_from ctx.criterion_sql])
            (spec_sample_sql p ctx.left_from ctx.right_from ctx.criterion_sql)).execRes with
        | some msg => intro h; simp at h
        | none =>
          cases h4 : (c.resp (tr ++ [spec_count_sql p ctx.left_from ctx.right_from ctx.criterion_sql])
              (spec_sample_sql p ctx.left_from ctx.right_from ctx.criterion_sql)).allRes with
          | error msg => intro h; simp [h4] at h
          | ok s =>
            intro h
            simp only [Prod.mk.injEq, StepRes.viol.injEq] at h
            refine ⟨k, s, ?_, ?_, hk, ?_, h.1.symm, h.2.symm⟩ <;> simp [h1, h2, h4]

theorem spec_run_plan_viol_inv {V : Type} (c : Cursor V) (vb : Bool) :
    ∀ (items : List (JoinCtx × Prim)) (tr tr' : List String) (r : Results V),
    spec_run_plan c vb tr items = (tr', StepRes.viol r) →
    ∃ p ctx tr0, (ctx, p) ∈ items ∧ runPrimCheck p c tr0 ctx vb = (tr', StepRes.viol r) := by
  intro items
  induction items with
  | nil => intro tr tr' r h; simp [spec_run_plan] at h
  | cons x rest ih =>
    intro tr tr' r h
    rcases x with ⟨ctx, p⟩
    simp only [spec_run_plan] at h
    revert h
    rcases hs : runPrimCheck p c tr ctx vb with ⟨tr1, (_ | r1 | m1)⟩
    · intro h
      obtain ⟨p', ctx', tr0, hmem, hrun⟩ := ih tr1 tr' r h
      exact ⟨p', ctx', tr0, List.mem_cons_of_mem _ hmem, hrun⟩
    · intro h
      simp only [Prod.mk.injEq, StepRes.viol.injEq] at h
      exact ⟨p, ctx, tr, List.mem_cons_self _ _, by rw [hs, h.1, h.2]⟩
    · intro h; simp at h

theorem primViolResults_fields {V : Type} (p : Prim) (k : Int) (s : List V)
    (ln rn : String) :
    (primViolResults V p k s ln rn).status = Status.VALIDATION_ERROR ∧
    (primViolResults V p k s ln rn).value = none ∧
    (primViolResults V p k s ln rn).error_size = some k ∧
    (primViolResults V p k s ln rn).error_sample = some s := by
  cases p <;> exact ⟨rfl, rfl, rfl, rfl⟩

/-- C1: with validation enabled, `execute` runs exactly the combined check
plan — flagged determinate joins in declared order, and within each join
the flagged primitive checks in the fixed priority order ONE_TO_MANY,
MANY_TO_ONE, LEFT_TOTAL, RIGHT_TOTAL — short-circuiting at the first
non-passing check; when that plan reports a violation, `execute` returns
it (a `VALIDATION_ERROR`) with the trace of the plan alone, so no later
check runs and the main query is never executed. -/
theorem execute_validation_order {V : Type} (c : Cursor V) (query : QueryBuilder)
    (vb : Bool) :
    (execute c query false vb =
      (match spec_run_plan c vb [] (spec_plan query) with
       | (tr, StepRes.exc msg) => (tr, mkSqlError V msg)
       | (tr, StepRes.viol r) => (tr, r)
       | (tr, StepRes.pass) =>
         match runRowsQuery c tr query.sql with
         | (tr1, Except.error msg) => (tr1, mkSqlError V msg)
         | (tr1, Except.ok value) =>
           (tr1, { status := Status.OK, value := some value, error_msg := none,
                   error_loc := none, error_size := none, error_sample := none }))) ∧
    (∀ (tr : List String) (r : Results V),
      spec_run_plan c vb [] (spec_plan query) = (tr, StepRes.viol r) →
      execute c query false vb = (tr, r) ∧ r.status = Status.VALIDATION_ERROR) := by
  have heq : execute c query false vb =
      (match spec_run_plan c vb [] (spec_plan query) with
       | (tr, StepRes.exc msg) => (tr, mkSqlError V msg)
       | (tr, StepRes.viol r) => (tr, r)
       | (tr, StepRes.pass) =>
         match runRowsQuery c tr query.sql with
         | (tr1, Except.error msg) => (tr1, mkSqlError V msg)
         | (tr1, Except.ok value) =>
           (tr1, { status := Status.OK, value := some value, error_msg := none,
                   error_loc := none, error_size := none, error_sample := none })) := by
    simp only [execute, Bool.false_eq_true, if_false, joinsLoop_eq_plan, spec_plan]
  refine ⟨heq, ?_⟩
  intro tr r hs
  obtain ⟨p, ctx, tr0, _, hrun⟩ :=
    spec_run_plan_viol_inv c vb (spec_plan query) [] tr r hs
  obtain ⟨k, s, _, _, _, _, _, hr⟩ := runPrimCheck_viol_inv p c tr0 ctx vb tr r hrun
  constructor
  · rw [heq, hs]
  · rw [hr]; exact (primViolResults_fields p k s _ _).1

example : q_quote "users" = "\"users\"" := by decide

example : item_from_and_name (Entity.table "users") = ("\"users\"", "users") := by decide

example : q_quote "a\"b" = "\"a\"\"b\"" := by decide

/-- Witness for `execute_validation_order`: on a concrete violating
database the plan's first violation is returned by `execute`. -/
theorem execute_validation_order_witness :
    execute wCursorViol wQuery false false =
      (["SELECT COUNT(*) FROM \"profiles\" WHERE (SELECT COUNT(*) FROM \"users\" WHERE P) > 1",
        "SELECT * FROM \"profiles\" WHERE (SELECT COUNT(*) FROM \"users\" WHERE P) > 1 LIMIT 10"],
       primViolResults Nat Prim.ONE_TO_MANY 5 [7, 8] "users" "profiles") ∧
    (primViolResults Nat Prim.ONE_TO_MANY 5 [7, 8] "users" "profiles").status =
      Status.VALIDATION_ERROR :=
  (execute_validation_order wCursorViol wQuery false).2
    ["SELECT COUNT(*) FROM \"profiles\" WHERE (SELECT COUNT(*) FROM \"users\" WHERE P) > 1",
     "SELECT * FROM \"profiles\" WHERE (SELECT COUNT(*) FROM \"users\" WHERE P) > 1 LIMIT 10"]
    (primViolResults Nat Prim.ONE_TO_MANY 5 [7, 8] "users" "profiles")
    (by decide)

/-- C2: `execute` never raises — it agrees with the raising semantics
whenever no driver exception occurs, and any driver exception (from any
validation query or the main query, at any of `cursor.execute`,
`cursor.fetchone` or `cursor.fetchall`) is converted into a returned
`Results` with status `SQL_ERROR` carrying the exception's message. -/
theorem execute_never_raises {V : Type} (c : Cursor V) (query : QueryBuilder)
    (skip_validation verbose : Bool) :
    (∀ out, executeRaises c query skip_validation verbose = Except.ok out →
      execute c query skip_validation verbose = out) ∧
    (∀ msg, executeRaises c query skip_validation verbose = Except.error msg →
      (execute c query skip_validation verbose).2 = mkSqlError V msg) := by
  simp only [execute, executeRaises]
  rcases hp : (if skip_validation then (([] : List String), StepRes.pass)
      else joinsLoop c [] query.joins verbose) with ⟨tr, st⟩
  cases st with
  | pass =>
    rcases hm : runRowsQuery c tr query.sql with ⟨tr1, e⟩
    cases e with
    | error msg =>
      refine ⟨fun out hout => ?_, fun m hm2 => ?_⟩
      · simp [hm] at hout
      · simp [hm] at hm2 ⊢
        simp [hm2]
    | ok value =>
      refine ⟨fun out hout => ?_, fun m hm2 => ?_⟩
      · simp [hm] at hout ⊢
        simp [← hout]
      · simp [hm] at hm2
  | viol r =>
    exact ⟨fun out hout => by simp only [Except.ok.injEq] at hout; rw [← hout],
           fun m hm2 => by simp at hm2⟩
  | exc msg =>
    exact ⟨fun out hout => by simp at hout,
           fun m hm2 => by simp only [Except.error.injEq] at hm2; simp [hm2]⟩

/-- Witness for `execute_never_raises`: a cursor that raises on its first
statement yields an `SQL_ERROR` result carrying the message. -/
theorem execute_never_raises_witness :
    (execute wCursorErr wQuery false false).2 = mkSqlError Nat "boom" :=
  (execute_never_raises wCursorErr wQuery false false).2 "boom" rfl

/-- Every run of `execute` ends in exactly one of three shapes: a
successful main query (`OK`/`NOT_VALIDATED` with rows), a converted driver
exception (`mkSqlError`), or a violation record produced by one primitive
check of the plan. -/
theorem execute_cases {V : Type} (c : Cursor V) (query : QueryBuilder)
    (sv vb : Bool) :
    (∃ tr rows, execute c query sv vb =
      (tr, { status := if sv then Status.NOT_VALIDATED else Status.OK,
             value := some rows, error_msg := none, error_loc := none,
             error_size := none, error_sample := none })) ∨
    (∃ tr msg, execute c query sv vb = (tr, mkSqlError V msg)) ∨
    (∃ (tr : List String) (p : Prim) (ctx : JoinCtx) (tr0 : List String)
       (k : Int) (s : List V),
      sv = false ∧ k ≠ 0 ∧
      runPrimCheck p c tr0 ctx vb =
        (tr, StepRes.viol (primViolResults V p k s ctx.left_name ctx.right_name)) ∧
      execute c query sv vb = (tr, primViolResults V p k s ctx.left_name ctx.right_name) ∧
      (c.resp tr0 (spec_count_sql p ctx.left_from ctx.right_from ctx.criterion_sql)).oneRes =
        Except.ok k ∧
      (c.resp (tr0 ++ [spec_count_sql p ctx.left_from ctx.right_from ctx.criterion_sql])
        (spec_sample_sql p ctx.left_from ctx.right_from ctx.criterion_sql)).allRes =
        Except.ok s) := by
  have hmain : ∀ (tr : List String),
      (∃ tr1 rows, (match runRowsQuery c tr query.sql with
        | (tr1, Except.error msg) => (tr1, mkSqlError V msg)
        | (tr1, Except.ok value) =>
          (tr1, { status := if sv then Status.NOT_VALIDATED else Status.OK,
                  value := some value, error_msg := none, error_loc := none,
                  error_size := none, error_sample := none })) =
        (tr1, { status := if sv then Status.NOT_VALIDATED else Status.OK,
                value := some rows, error_msg := none, error_loc := none,
                error_size := none, error_sample := none })) ∨
      (∃ tr1 msg, (match runRowsQuery c tr query.sql with
        | (tr1, Except.error msg) => (tr1, mkSqlError V msg)
        | (tr1, Except.ok value) =>
          (tr1, { status := if sv then Status.NOT_VALIDATED else Status.OK,
                  value := some value, error_msg := none, error_loc := none,
                  error_size := none, error_sample := none })) =
        (tr1, mkSqlError V msg)) := by
    intro tr
    rcases hm : runRowsQuery c tr query.sql with ⟨tr1, (_ | _)⟩
    · right; exact ⟨tr1, _, rfl⟩
    · left; exact ⟨tr1, _, rfl⟩
  cases sv with
  | true =>
    simp only [execute]
    rcases hmain [] with ⟨tr1, rows, hm⟩ | ⟨tr1, msg, hm⟩
    · exact Or.inl ⟨tr1, rows, hm⟩
    · exact Or.inr (Or.inl ⟨tr1, msg, hm⟩)
  | false =>
    simp only [execute, Bool.false_eq_true, if_false]
    rcases hs : joinsLoop c [] query.joins vb with ⟨tr, st⟩
    cases st with
    | pass =>
      rcases hmain tr with ⟨tr1, rows, hm⟩ | ⟨tr1, msg, hm⟩
      · exact Or.inl ⟨tr1, rows, hm⟩
      · exact Or.inr (Or.inl ⟨tr1, msg, hm⟩)
    | viol r =>
      rw [joinsLoop_eq_plan] at hs
      obtain ⟨p, ctx, tr0, _, hrun⟩ :=
        spec_run_plan_viol_inv c vb (query.joins.flatMap spec_join_checks) [] tr r hs
      obtain ⟨k, s, _, hone, hk, hall, htr, hr⟩ :=
        runPrimCheck_viol_inv p c tr0 ctx vb tr r hrun
      refine Or.inr (Or.inr ⟨tr, p, ctx, tr0, k, s, trivial, hk, ?_, ?_, hone, hall⟩)
      · rw [← hr]; exact hrun
      · rw [← hr]
    | exc msg => exact Or.inr (Or.inl ⟨tr, msg, rfl⟩)

/-- C5: every violation `Results` takes its `error_size` directly and
uncapped from the count query's reported count, and its `error_sample`
from the `LIMIT 10` sample query — so on any driver that honors `LIMIT`,
every `VALIDATION_ERROR` returned by `execute` carries at most 10 sample
rows no matter how large `error_size` is. -/
theorem validation_error_sample_capped {V : Type} (c : Cursor V)
    (query : QueryBuilder) (sv vb : Bool) :
    (∀ (p : Prim) (tr : List String) (ctx : JoinCtx) (tr' : List String) (r : Results V),
      runPrimCheck p c tr ctx vb = (tr', StepRes.viol r) →
      ∃ (k : Int) (s : List V),
        (c.resp tr (spec_count_sql p ctx.left_from ctx.right_from ctx.criterion_sql)).oneRes =
          Except.ok k ∧
        r.error_size = some k ∧
        (c.resp (tr ++ [spec_count_sql p ctx.left_from ctx.right_from ctx.criterion_sql])
          (spec_sample_sql p ctx.left_from ctx.right_from ctx.criterion_sql)).allRes =
          Except.ok s ∧
        r.error_sample = some s) ∧
    (honorsLimit10 c →
      ∀ (tr' : List String) (r : Results V),
        execute c query sv vb = (tr', r) →
        r.status = Status.VALIDATION_ERROR →
        ∃ s, r.error_sample = some s ∧ s.length ≤ 10) := by
  constructor
  · intro p tr ctx tr' r hrun
    obtain ⟨k, s, _, hone, _, hall, _, hr⟩ := runPrimCheck_viol_inv p c tr ctx vb tr' r hrun
    refine ⟨k, s, hone, ?_, hall, ?_⟩
    · rw [hr]; exact (primViolResults_fields p k s _ _).2.2.1
    · rw [hr]; exact (primViolResults_fields p k s _ _).2.2.2
  · intro hlim tr' r hexec hstat
    rcases execute_cases c query sv vb with
      ⟨tr1, rows, h⟩ | ⟨tr1, msg, h⟩ |
      ⟨tr1, p, ctx, tr0, k, s, _, _, _, h, _, hall⟩
    · rw [hexec] at h
      have := congrArg (fun x => (Prod.snd x).status) h
      simp only [hstat] at this
      cases sv <;> simp at this
    · rw [hexec] at h
      have := congrArg (fun x => (Prod.snd x).status) h
      simp only [hstat, mkSqlError] at this
      simp at this
    · rw [hexec] at h
      have hr : r = primViolResults V p k s ctx.left_name ctx.right_name := by
        have := congrArg Prod.snd h
        simpa using this
      refine ⟨s, ?_, hlim _ p _ _ _ s hall⟩
      rw [hr]; exact (primViolResults_fields p k s _ _).2.2.2

/-- C10: the `value` field of the `Results` returned by `execute` is
populated exactly when the status is `OK` or `NOT_VALIDATED`; failures
(`VALIDATION_ERROR`, `SQL_ERROR`) never carry partial main-query rows. -/
theorem value_some_iff_success {V : Type} (c : Cursor V) (query : QueryBuilder)
    (sv vb : Bool) :
    (execute c query sv vb).2.value.isSome ↔
      ((execute c query sv vb).2.status = Status.OK ∨
       (execute c query sv vb).2.status = Status.NOT_VALIDATED) := by
  rcases execute_cases c query sv vb with
    ⟨tr1, rows, h⟩ | ⟨tr1, msg, h⟩ |
    ⟨tr1, p, ctx, tr0, k, s, _, _, _, h, _, _⟩
  · rw [h]; cases sv <;> simp
  · rw [h]; simp [mkSqlError]
  · rw [h]
    have hf := primViolResults_fields (V := V) p k s ctx.left_name ctx.right_name
    simp [hf.1, hf.2.1]

/-- Witness for `validation_error_sample_capped` at the concrete violating
cursor. -/
theorem validation_error_sample_capped_witness :
    (∃ (k : Int) (s : List Nat),
      (wCursorViol.resp []
        (spec_count_sql Prim.ONE_TO_MANY wCtx.left_from wCtx.right_from wCtx.criterion_sql)).oneRes =
        Except.ok k ∧
      (primViolResults Nat Prim.ONE_TO_MANY 5 [7, 8] "users" "profiles").error_size = some k ∧
      (wCursorViol.resp
        ([] ++ [spec_count_sql Prim.ONE_TO_MANY wCtx.left_from wCtx.right_from wCtx.criterion_sql])
        (spec_sample_sql Prim.ONE_TO_MANY wCtx.left_from wCtx.right_from wCtx.criterion_sql)).allRes =
        Except.ok s ∧
      (primViolResults Nat Prim.ONE_TO_MANY 5 [7, 8] "users" "profiles").error_sample = some s) ∧
    (∃ s, (primViolResults Nat Prim.ONE_TO_MANY 5 [7, 8] "users" "profiles").error_sample = some s ∧
      s.length ≤ 10) := by
  have hlim : honorsLimit10 wCursorViol := by
    intro tr p L R P rows h
    simp only [wCursorViol, Except.ok.injEq] at h
    rw [← h]
    decide
  constructor
  · exact (validation_error_sample_capped wCursorViol wQuery false false).1
      Prim.ONE_TO_MANY [] wCtx
      ["SELECT COUNT(*) FROM \"profiles\" WHERE (SELECT COUNT(*) FROM \"users\" WHERE P) > 1",
       "SELECT * FROM \"profiles\" WHERE (SELECT COUNT(*) FROM \"users\" WHERE P) > 1 LIMIT 10"]
      (primViolResults Nat Prim.ONE_TO_MANY 5 [7, 8] "users" "profiles")
      (by decide)
  · exact (validation_error_sample_capped wCursorViol wQuery false false).2 hlim
      ["SELECT COUNT(*) FROM \"profiles\" WHERE (SELECT COUNT(*) FROM \"users\" WHERE P) > 1",
       "SELECT * FROM \"profiles\" WHERE (SELECT COUNT(*) FROM \"users\" WHERE P) > 1 LIMIT 10"]
      (primViolResults Nat Prim.ONE_TO_MANY 5 [7, 8] "users" "profiles")
      (by decide) (by decide)

/-- A join that is either unflagged or whose validation is a no-op (pass,
no SQL) can be dropped from the loop without changing anything. -/
theorem joinsLoop_dropJoin {V : Type} (c : Cursor V) (vb : Bool) (j : JoinRecord)
    (post : List JoinRecord)
    (h : j.validation.getD 0 = 0 ∨ ∀ tr, validate_join c tr j vb = (tr, StepRes.pass)) :
    ∀ (pre : List JoinRecord) (tr : List String),
    joinsLoop c tr (pre ++ j :: post) vb = joinsLoop c tr (pre ++ post) vb := by
  intro pre
  induction pre with
  | nil =>
    intro tr
    simp only [List.nil_append, joinsLoop]
    rcases h with h0 | hpass
    · simp [h0]
    · by_cases h0 : j.validation.getD 0 = 0
      · simp [h0]
      · simp [h0, hpass tr]
  | cons j0 rest ih =>
    intro tr
    simp only [List.cons_append, joinsLoop]
    by_cases h0 : j0.validation.getD 0 = 0
    · simp [h0, ih]
    · simp only [if_neg h0]
      rcases validate_join c tr j0 vb with ⟨tr1, (_ | _ | _)⟩ <;> simp [ih]

/-- C6: a flagged join whose predicate's non-right-hand field references
resolve to zero or more than one distinct entity is indeterminate:
`_validate_join` passes with no SQL issued and no error, and `execute`'s
outcome is exactly as if that join were unflagged. -/
theorem indeterminate_join_skipped {V : Type} (c : Cursor V) (vb : Bool)
    (tr : List String) (j : JoinRecord) (pre post : List JoinRecord)
    (sqltext : String)
    (hflag : j.validation.getD 0 ≠ 0)
    (hind : (((j.criterion.fields.filterMap FieldRef.table).filter
        (fun t => t != j.item)).eraseDups).length ≠ 1) :
    validate_join c tr j vb = (tr, StepRes.pass) ∧
    execute c (QueryBuilder.mk (pre ++ j :: post) sqltext) false vb =
      execute c (QueryBuilder.mk (pre ++ { j with validation := some 0 } :: post) sqltext)
        false vb := by
  have hglt : get_left_table j.criterion j.item = none := by
    unfold get_left_table
    rcases hl : ((j.criterion.fields.filterMap FieldRef.table).filter
        (fun t => t != j.item)).eraseDups with _ | ⟨t, _ | ⟨t2, rest⟩⟩
    · rfl
    · exact absurd (by rw [hl]; rfl) hind
    · rfl
  have hpass : ∀ tr0 : List String, validate_join c tr0 j vb = (tr0, StepRes.pass) := by
    intro tr0
    simp [validate_join, hglt]
  refine ⟨hpass tr, ?_⟩
  have h1 := joinsLoop_dropJoin c vb j post (Or.inr hpass) pre
  have h2 := joinsLoop_dropJoin c vb { j with validation := some 0 } post (Or.inl rfl) pre
  simp only [execute, h1, h2]

/-- C9: a join record with no `validation` attribute at all is treated
exactly like an unflagged join: dropped from validation with no SQL and no
error, identically to a join whose flag value is zero. -/
theorem missing_validation_attr_skipped {V : Type} (c : Cursor V) (vb : Bool)
    (j : JoinRecord) (pre post : List JoinRecord) (sqltext : String)
    (h : j.validation = none) :
    execute c (QueryBuilder.mk (pre ++ j :: post) sqltext) false vb =
      execute c (QueryBuilder.mk (pre ++ post) sqltext) false vb ∧
    execute c (QueryBuilder.mk (pre ++ j :: post) sqltext) false vb =
      execute c (QueryBuilder.mk (pre ++ { j with validation := some 0 } :: post) sqltext)
        false vb := by
  have h0 : j.validation.getD 0 = 0 := by rw [h]; rfl
  have h1 := joinsLoop_dropJoin c vb j post (Or.inl h0) pre
  have h2 := joinsLoop_dropJoin c vb { j with validation := some 0 } post (Or.inl rfl) pre
  constructor
  · simp only [execute, h1]
  · simp only [execute, h1, h2]

/-- Witness for `indeterminate_join_skipped` at a concrete two-left-table
join. -/
theorem indeterminate_join_skipped_witness :
    validate_join wCursorViol [] wJoinInd false = ([], StepRes.pass) ∧
    execute wCursorViol (QueryBuilder.mk ([] ++ wJoinInd :: []) "M") false false =
      execute wCursorViol
        (QueryBuilder.mk ([] ++ { wJoinInd with validation := some 0 } :: []) "M")
        false false :=
  indeterminate_join_skipped wCursorViol false [] wJoinInd [] [] "M"
    (by decide) (by decide)

/-- Witness for `missing_validation_attr_skipped` at a concrete
attribute-less join. -/
theorem missing_validation_attr_skipped_witness :
    execute wCursorViol (QueryBuilder.mk ([] ++ wJoinNoAttr :: []) "M") false false =
      execute wCursorViol (QueryBuilder.mk ([] ++ ([] : List JoinRecord)) "M") false false ∧
    execute wCursorViol (QueryBuilder.mk ([] ++ wJoinNoAttr :: []) "M") false false =
      execute wCursorViol
        (QueryBuilder.mk ([] ++ { wJoinNoAttr with validation := some 0 } :: []) "M")
        false false :=
  missing_validation_attr_skipped wCursorViol false wJoinNoAttr [] [] "M" rfl
